import Mathlib

/-!
Verification of `griptape_screenwriter/structure.py`.

The file shallowly embeds the pure core of the program: the JSON handling
(`json.loads` / `json.dumps` on the fragment the program uses), the
`clean_json` helper together with the semantics of its regular expression,
the pydantic-style validation of `Outline`, `Character` and `StoryData`,
the four agent `run` methods, and `run_story_pipeline`.  The external LLM
backend (`new_driver().run(stack_with_message(...))`) is modelled as a
function from the resolved prompt string to the raw response text.
-/

namespace Screenwriter

/-- The Python exception kinds the embedded code can raise.
`jsonDecodeError` stands for `json.JSONDecodeError` (raised by `json.loads`),
`validationError` for `pydantic.ValidationError` (raised by `parse_raw` /
`parse_obj` and by field validation at model construction),
`assertionError` for a failing `assert` statement, `typeError` for iterating
a non-iterable, and `attributeError` for attribute access on an object that
lacks it (e.g. `.get` on a non-dict, `.json()` on `None`). -/
inductive Err where
  | valueError : String → Err
  | jsonDecodeError : Err
  | validationError : Err
  | assertionError : String → Err
  | typeError : Err
  | attributeError : Err
deriving DecidableEq

/-- JSON values as produced by Python's `json.loads`.  Integral numbers are
kept exactly (`num`); a numeric token with a fraction or exponent part is
kept as its raw token (`fnum`) — the program's schemas only ever consume
integral numbers.  Objects keep their key/value pairs in parse order. -/
inductive Json where
  | null : Json
  | bool : Bool → Json
  | num : Int → Json
  | fnum : String → Json
  | str : String → Json
  | arr : List Json → Json
  | obj : List (String × Json) → Json

/-- JSON whitespace skipped by Python's `json` scanner. -/
def skipWs (cs : List Char) : List Char :=
  cs.dropWhile (fun c => c == ' ' || c == '\t' || c == '\n' || c == '\r')

def hexVal (c : Char) : Option Nat :=
  if 48 ≤ c.toNat ∧ c.toNat ≤ 57 then some (c.toNat - 48)
  else if 97 ≤ c.toNat ∧ c.toNat ≤ 102 then some (c.toNat - 87)
  else if 65 ≤ c.toNat ∧ c.toNat ≤ 70 then some (c.toNat - 55)
  else none

/-- Body of a JSON string literal (the opening quote already consumed),
with the escape sequences of Python's `json` decoder in strict mode:
raw control characters are rejected. -/
def jParseStringBody (fuel : Nat) (cs : List Char) (acc : List Char) :
    Except String (String × List Char) :=
  match fuel with
  | 0 => .error "fuel exhausted"
  | fuel + 1 =>
    match cs with
    | [] => .error "Unterminated string"
    | c :: rest =>
      if c == '"' then .ok (⟨acc.reverse⟩, rest)
      else if c == '\\' then
        match rest with
        | [] => .error "Unterminated string"
        | e :: rest2 =>
          if e == '"' then jParseStringBody fuel rest2 ('"' :: acc)
          else if e == '\\' then jParseStringBody fuel rest2 ('\\' :: acc)
          else if e == '/' then jParseStringBody fuel rest2 ('/' :: acc)
          else if e == 'b' then jParseStringBody fuel rest2 ('\x08' :: acc)
          else if e == 'f' then jParseStringBody fuel rest2 ('\x0c' :: acc)
          else if e == 'n' then jParseStringBody fuel rest2 ('\n' :: acc)
          else if e == 'r' then jParseStringBody fuel rest2 ('\r' :: acc)
          else if e == 't' then jParseStringBody fuel rest2 ('\t' :: acc)
          else if e == 'u' then
            match rest2 with
            | h1 :: h2 :: h3 :: h4 :: rest3 =>
              match hexVal h1, hexVal h2, hexVal h3, hexVal h4 with
              | some a, some b, some c3, some d =>
                  jParseStringBody fuel rest3
                    (Char.ofNat (((a * 16 + b) * 16 + c3) * 16 + d) :: acc)
              | _, _, _, _ => .error "Invalid hex escape"
            | _ => .error "Invalid hex escape"
          else .error "Invalid escape"
      else if c.toNat < 32 then .error "Invalid control character"
      else jParseStringBody fuel rest (c :: acc)

def isDigitCh (c : Char) : Bool := 48 ≤ c.toNat && c.toNat ≤ 57

def digitsToNat (ds : List Char) : Nat :=
  ds.foldl (fun n c => n * 10 + (c.toNat - 48)) 0

/-- A JSON number token, per the decoder's grammar
`-?(0|[1-9][0-9]*)([.][0-9]+)?([eE][+-]?[0-9]+)?`.  Tokens without a
fraction/exponent part become Python ints (`Json.num`), the others become
floats, kept as their raw token (`Json.fnum`). -/
def jParseNumber (cs : List Char) : Except String (Json × List Char) :=
  let negAndRest : Bool × List Char :=
    match cs with
    | '-' :: r => (true, r)
    | _ => (false, cs)
  let neg := negAndRest.1
  let cs1 := negAndRest.2
  match cs1 with
  | [] => .error "Expecting value"
  | c :: _ =>
    if !(isDigitCh c) then .error "Expecting value"
    else
      let intPart := if c == '0' then [c] else cs1.takeWhile isDigitCh
      let rest1 := cs1.drop intPart.length
      let fracAndRest : List Char × List Char :=
        match rest1 with
        | '.' :: r =>
          let ds := r.takeWhile isDigitCh
          if ds.isEmpty then ([], rest1) else ('.' :: ds, r.drop ds.length)
        | _ => ([], rest1)
      let fracPart := fracAndRest.1
      let rest2 := fracAndRest.2
      let expAndRest : List Char × List Char :=
        match rest2 with
        | e :: r =>
          if e == 'e' || e == 'E' then
            let sgnAndRest : List Char × List Char :=
              match r with
              | s :: r2 => if s == '+' || s == '-' then ([s], r2) else ([], r)
              | [] => ([], r)
            let ds := sgnAndRest.2.takeWhile isDigitCh
            if ds.isEmpty then ([], rest2)
            else (e :: (sgnAndRest.1 ++ ds), sgnAndRest.2.drop ds.length)
          else ([], rest2)
        | [] => ([], rest2)
      let expPart := expAndRest.1
      let rest3 := expAndRest.2
      if fracPart.isEmpty && expPart.isEmpty then
        let n : Int := Int.ofNat (digitsToNat intPart)
        .ok (Json.num (if neg then -n else n), rest1)
      else
        .ok (Json.fnum ⟨(if neg then ['-'] else []) ++ intPart ++ fracPart ++ expPart⟩, rest3)

mutual

/-- One JSON value, leading whitespace allowed; returns the remainder. -/
def jParseValue (fuel : Nat) (cs : List Char) : Except String (Json × List Char) :=
  match fuel with
  | 0 => .error "fuel exhausted"
  | fuel + 1 =>
    match skipWs cs with
    | [] => .error "Expecting value"
    | c :: rest =>
      if c == '{' then
        match skipWs rest with
        | '}' :: r => .ok (Json.obj [], r)
        | cs2 => jParseMembers fuel cs2 []
      else if c == '[' then
        match skipWs rest with
        | ']' :: r => .ok (Json.arr [], r)
        | cs2 => jParseItems fuel cs2 []
      else if c == '"' then
        match jParseStringBody (rest.length + 1) rest [] with
        | .ok (s, r) => .ok (Json.str s, r)
        | .error e => .error e
      else if c == 't' then
        match rest with
        | 'r' :: 'u' :: 'e' :: r => .ok (Json.bool true, r)
        | _ => .error "Expecting value"
      else if c == 'f' then
        match rest with
        | 'a' :: 'l' :: 's' :: 'e' :: r => .ok (Json.bool false, r)
        | _ => .error "Expecting value"
      else if c == 'n' then
        match rest with
        | 'u' :: 'l' :: 'l' :: r => .ok (Json.null, r)
        | _ => .error "Expecting value"
      else jParseNumber (c :: rest)

/-- Members of a JSON object after at least one member is known to follow
(`cs` starts at a property name, whitespace already skipped). -/
def jParseMembers (fuel : Nat) (cs : List Char) (acc : List (String × Json)) :
    Except String (Json × List Char) :=
  match fuel with
  | 0 => .error "fuel exhausted"
  | fuel + 1 =>
    match cs with
    | '"' :: rest =>
      match jParseStringBody (rest.length + 1) rest [] with
      | .error e => .error e
      | .ok (k, r1) =>
        match skipWs r1 with
        | ':' :: r2 =>
          match jParseValue fuel r2 with
          | .error e => .error e
          | .ok (v, r3) =>
            match skipWs r3 with
            | ',' :: r4 => jParseMembers fuel (skipWs r4) ((k, v) :: acc)
            | '}' :: r4 => .ok (Json.obj ((k, v) :: acc).reverse, r4)
            | _ => .error "Expecting delimiter"
        | _ => .error "Expecting colon delimiter"
    | _ => .error "Expecting property name enclosed in double quotes"

/-- Items of a JSON array after at least one item is known to follow. -/
def jParseItems (fuel : Nat) (cs : List Char) (acc : List Json) :
    Except String (Json × List Char) :=
  match fuel with
  | 0 => .error "fuel exhausted"
  | fuel + 1 =>
    match jParseValue fuel cs with
    | .error e => .error e
    | .ok (v, r1) =>
      match skipWs r1 with
      | ',' :: r2 => jParseItems fuel r2 (v :: acc)
      | ']' :: r2 => .ok (Json.arr (v :: acc).reverse, r2)
      | _ => .error "Expecting delimiter"

end

/-- Python's `json.loads`: one JSON document, nothing but whitespace after
it (otherwise `json.JSONDecodeError: Extra data`). -/
def json_loads_raw (s : String) : Except String Json :=
  match jParseValue (s.length + 2) s.data with
  | .error e => .error e
  | .ok (v, rest) =>
    if (skipWs rest).isEmpty then .ok v else .error "Extra data"

/-- `json.loads`, with the failure collapsed to the exception kind. -/
def json_loads (s : String) : Except Err Json :=
  match json_loads_raw s with
  | .ok v => .ok v
  | .error _ => .error .jsonDecodeError

def hexDigit (n : Nat) : Char :=
  if n < 10 then Char.ofNat (48 + n) else Char.ofNat (87 + n)

def hex4 (n : Nat) : List Char :=
  [hexDigit (n / 4096 % 16), hexDigit (n / 256 % 16), hexDigit (n / 16 % 16), hexDigit (n % 16)]

/-- One character of `json.dumps` output with the default `ensure_ascii`:
quote and backslash are escaped, the usual control shorthands are used,
every other character outside `0x20..0x7e` becomes `uXXXX` escapes
(a surrogate pair beyond the basic plane). -/
def escapeChar (c : Char) : List Char :=
  if c == '"' then ['\\', '"']
  else if c == '\\' then ['\\', '\\']
  else if c == '\n' then ['\\', 'n']
  else if c == '\r' then ['\\', 'r']
  else if c == '\t' then ['\\', 't']
  else if c == '\x08' then ['\\', 'b']
  else if c == '\x0c' then ['\\', 'f']
  else if c.toNat < 32 ∨ 126 < c.toNat then
    if c.toNat < 65536 then '\\' :: 'u' :: hex4 c.toNat
    else
      let v := c.toNat - 65536
      ('\\' :: 'u' :: hex4 (55296 + v / 1024)) ++ ('\\' :: 'u' :: hex4 (56320 + v % 1024))
  else [c]

def json_dumps_string (s : String) : String :=
  ⟨'"' :: (s.data.map escapeChar).flatten ++ ['"']⟩

mutual

/-- Python's `json.dumps` with its default separators `', '` and `': '`. -/
def json_dumps : Json → String
  | .null => "null"
  | .bool true => "true"
  | .bool false => "false"
  | .num n => toString n
  | .fnum t => t
  | .str s => json_dumps_string s
  | .arr items => "[" ++ json_dumps_arr items ++ "]"
  | .obj kvs => "\x7b" ++ json_dumps_obj kvs ++ "\x7d"

def json_dumps_arr : List Json → String
  | [] => ""
  | [v] => json_dumps v
  | v :: rest => json_dumps v ++ ", " ++ json_dumps_arr rest

def json_dumps_obj : List (String × Json) → String
  | [] => ""
  | [(k, v)] => json_dumps_string k ++ ": " ++ json_dumps v
  | (k, v) :: rest => json_dumps_string k ++ ": " ++ json_dumps v ++ ", " ++ json_dumps_obj rest

end

/-- The whitespace set of Python's `str.strip()` on ASCII text. -/
def pyIsSpace (c : Char) : Bool :=
  c == ' ' || c == '\t' || c == '\n' || c == '\r' || c == '\x0b' || c == '\x0c'

/-- Python `raw.strip()`. -/
def pyStrip (s : String) : String :=
  ⟨((s.data.dropWhile pyIsSpace).reverse.dropWhile pyIsSpace).reverse⟩

/-- Python `s.lstrip(chars)`: removes every leading character that belongs
to the character SET `chars` (not the prefix `chars`). -/
def pyLstripSet (chars : List Char) (s : String) : String :=
  ⟨s.data.dropWhile (fun c => chars.contains c)⟩

/-- The character set of the argument of `.lstrip("```json")` in
`clean_json` (structure.py line 64): backquote, j, s, o, n. -/
def backquoteJsonChars : List Char := "```json".data

/-- The character set of the second `.lstrip("```")`. -/
def backquoteChars : List Char := "```".data

/-- `JSON_REGEX.search` for `JSON_REGEX = re.compile(r"\{[\s\S]*}?")`
(structure.py line 61).  The leftmost match starts at the first brace;
the greedy `[\s\S]*` then consumes the whole remainder of the string and
the optional `}?` matches the empty string, so `match.group(0)` is exactly
the suffix of the text starting at its first brace.  With no brace in the
text there is no match. -/
def JSON_REGEX_search (s : String) : Option String :=
  if s.data.contains '{' then some ⟨s.data.dropWhile (fun c => !(c == '{'))⟩
  else none

/-- `clean_json` (structure.py lines 63-68). -/
def clean_json (raw : String) : Except Err String :=
  let r := pyLstripSet backquoteChars (pyLstripSet backquoteJsonChars (pyStrip raw))
  match JSON_REGEX_search r with
  | some m => .ok m
  | none => .error (.valueError "No JSON object found in LLM response")

/-- The extraction path shared by the Character Designer, Thematic Analyst
and Scene Shaper stages: `json.loads(clean_json(response))`. -/
def extract_json (raw : String) : Except Err Json :=
  match clean_json raw with
  | .error e => .error e
  | .ok c => json_loads c

/-- `extract_json` instrumented with whether the JSON parser was invoked:
when `clean_json` raises, the parse is never attempted. -/
def extract_jsonT (raw : String) : Bool × Except Err Json :=
  match clean_json raw with
  | .error e => (false, .error e)
  | .ok c => (true, json_loads c)

/-! ## The pydantic models (structure.py lines 29-56) -/

structure Scene where
  act : Int
  number : Int
  description : String
  conflict : String
  value_change : String
deriving DecidableEq

structure Outline where
  title : String
  theme : String
  protagonist_desire : String
  protagonist_need : String
  scenes : List Scene
deriving DecidableEq

structure Character where
  name : String
  role : String
  backstory : String
  desire : String
  need : String
  arc : Option String
deriving DecidableEq

/-- `StoryData`.  The declared defaults (`None`, `[]`) are spelled out at
every construction site, as the Python constructor calls do. -/
structure StoryData where
  premise : Option String
  outline : Option Outline
  characters : List Character
  analysis_notes : List String
  screenplay_scenes : List Json

/-- `dict.get` data: the value stored for `k` (last write wins, as in a
Python dict built by the parser). -/
def dictGet (kvs : List (String × Json)) (k : String) : Option Json :=
  kvs.foldl (fun acc p => if p.1 == k then some p.2 else acc) none

/-- pydantic v1 validation of a `str` field: strings pass, ints, floats and
bools are coerced with `str()`, anything else fails. -/
def asStr : Json → Option String
  | .str s => some s
  | .num n => some (toString n)
  | .fnum t => some t
  | .bool b => some (if b then "True" else "False")
  | _ => none

/-- `int(s)` on a stripped string of an optionally signed decimal literal
(digit-group underscores are not modelled; no claim exercises them). -/
def strToIntPy (s : String) : Option Int :=
  let cs := ((s.data.dropWhile pyIsSpace).reverse.dropWhile pyIsSpace).reverse
  let sgnRest : Bool × List Char :=
    match cs with
    | '-' :: r => (true, r)
    | '+' :: r => (false, r)
    | _ => (false, cs)
  if sgnRest.2 ≠ [] ∧ sgnRest.2.all isDigitCh then
    some (if sgnRest.1 then -(Int.ofNat (digitsToNat sgnRest.2))
          else Int.ofNat (digitsToNat sgnRest.2))
  else none

/-- pydantic v1 validation of an `int` field: ints pass, bools are ints in
Python, integer-literal strings are coerced with `int()`; the truncation
of floats is not modelled (no claim exercises it). -/
def asInt : Json → Option Int
  | .num n => some n
  | .bool b => some (if b then 1 else 0)
  | .str s => strToIntPy s
  | _ => none

/-- `Scene` validation; `none` is a `pydantic.ValidationError`.  Extra
fields are ignored (the default pydantic v1 config). -/
def Scene.from_json : Json → Option Scene
  | .obj kvs => do
      let act ← (dictGet kvs "act").bind asInt
      let number ← (dictGet kvs "number").bind asInt
      let description ← (dictGet kvs "description").bind asStr
      let conflict ← (dictGet kvs "conflict").bind asStr
      let value_change ← (dictGet kvs "value_change").bind asStr
      some ⟨act, number, description, conflict, value_change⟩
  | _ => none

/-- `Outline` validation of a parsed JSON value. -/
def Outline.from_json : Json → Option Outline
  | .obj kvs => do
      let title ← (dictGet kvs "title").bind asStr
      let theme ← (dictGet kvs "theme").bind asStr
      let protagonist_desire ← (dictGet kvs "protagonist_desire").bind asStr
      let protagonist_need ← (dictGet kvs "protagonist_need").bind asStr
      let scenesJ ← dictGet kvs "scenes"
      let scenes ← match scenesJ with
        | .arr items => items.mapM Scene.from_json
        | _ => none
      some ⟨title, theme, protagonist_desire, protagonist_need, scenes⟩
  | _ => none

/-- `Outline.parse_raw(s)`: pydantic v1 parses `s` as JSON and validates;
both a JSON decode failure and a schema failure surface as
`pydantic.ValidationError`. -/
def Outline.parse_raw (s : String) : Except Err Outline :=
  match json_loads_raw s with
  | .error _ => .error .validationError
  | .ok j =>
    match Outline.from_json j with
    | some o => .ok o
    | none => .error .validationError

/-- `Character.parse_obj(c)`; `none` is a `pydantic.ValidationError`.
`arc: Optional[str] = "Unknown"`: an absent field takes the default, an
explicit `null` becomes `None`. -/
def Character.parse_obj : Json → Option Character
  | .obj kvs => do
      let name ← (dictGet kvs "name").bind asStr
      let role ← (dictGet kvs "role").bind asStr
      let backstory ← (dictGet kvs "backstory").bind asStr
      let desire ← (dictGet kvs "desire").bind asStr
      let need ← (dictGet kvs "need").bind asStr
      let arc ← match dictGet kvs "arc" with
        | none => some (some "Unknown")
        | some Json.null => some none
        | some v => (asStr v).map some
      some ⟨name, role, backstory, desire, need, arc⟩
  | _ => none

/-- pydantic validation of `analysis_notes: List[str]` when a raw JSON
value is passed to the `StoryData` constructor. -/
def validate_str_list (j : Json) : Option (List String) :=
  match j with
  | .arr items => items.mapM asStr
  | _ => none

def isObj : Json → Bool
  | .obj _ => true
  | _ => false

/-- pydantic validation of `screenplay_scenes: List[dict]`: every element
must be a dict and is stored as-is — the `Scene` schema is never applied
to it. -/
def validate_dict_list (j : Json) : Option (List Json) :=
  match j with
  | .arr items => if items.all isObj then some items else none
  | _ => none

/-- Python truthiness of a parsed JSON value (`if not chars_json`). -/
def pyFalsy : Json → Bool
  | .null => true
  | .bool b => !b
  | .num n => n == 0
  | .fnum _ => false
  | .str s => s.isEmpty
  | .arr l => l.isEmpty
  | .obj l => l.isEmpty

/-! ## Serialization used inside the prompts -/

/-- `Character.dict()` in field-declaration order; `arc=None` serializes
as JSON `null`. -/
def Character.dict (c : Character) : Json :=
  .obj [("name", .str c.name), ("role", .str c.role), ("backstory", .str c.backstory),
        ("desire", .str c.desire), ("need", .str c.need),
        ("arc", match c.arc with | some a => .str a | none => .null)]

def Scene.dict (s : Scene) : Json :=
  .obj [("act", .num s.act), ("number", .num s.number), ("description", .str s.description),
        ("conflict", .str s.conflict), ("value_change", .str s.value_change)]

def Outline.dict (o : Outline) : Json :=
  .obj [("title", .str o.title), ("theme", .str o.theme),
        ("protagonist_desire", .str o.protagonist_desire),
        ("protagonist_need", .str o.protagonist_need),
        ("scenes", .arr (o.scenes.map Scene.dict))]

/-- pydantic v1 `model.json()`: `json.dumps` of the model's dict. -/
def Outline.json (o : Outline) : String := json_dumps o.dict

/-- How a Python f-string renders an `Optional[str]`. -/
def pyStr : Option String → String
  | some s => s
  | none => "None"

/-! ## The agents (structure.py lines 101-160).  The external call
`new_driver(...).run(stack_with_message(prompt))` is modelled by an
`Invoker`: a function from the prompt text to the raw response text. -/

abbrev Invoker := String → String

/-- The prompt of `PlotArchitectAgent.run`. -/
def plotPrompt (premise : Option String) : String :=
  "You are a Plot Architect AI. Develop a screenplay outline using Robert McKee's Three-Act structure.\n"
  ++ "Premise: \"" ++ pyStr premise ++ "\"\n"
  ++ "Each scene must include: act, number, description, conflict, value_change.\n"
  ++ "Also include: title, theme, protagonist_desire, protagonist_need.\n"
  ++ "Respond ONLY with a JSON object."

/-- The prompt of `CharacterDesignerAgent.run`. -/
def charPrompt (o : Outline) : String :=
  "You are a Character Designer AI.\n"
  ++ "Title: " ++ o.title ++ "\n"
  ++ "Theme: " ++ o.theme ++ "\n"
  ++ "Protagonist's Desire: " ++ o.protagonist_desire ++ "\n"
  ++ "Protagonist's Need: " ++ o.protagonist_need ++ "\n"
  ++ "Design 3‑5 characters (name, role, backstory, desire, need, arc) that reflect or challenge the theme.\n"
  ++ "Return \x7b \"characters\": [ ... ] \x7d"

/-- The prompt of `ThematicAnalystAgent.run`. -/
def thematicPrompt (o : Outline) (characters : List Character) : String :=
  "You are a Thematic Analyst AI. Review the outline and characters for coherence.\n"
  ++ "Return \x7b \"issues_found\": bool, \"notes\": [...] \x7d.\n"
  ++ "Outline: " ++ o.json ++ "\n"
  ++ "Characters: " ++ json_dumps (.arr (characters.map Character.dict))

/-- The prompt of `SceneShaperAgent.run`. -/
def scenePrompt (o : Outline) (characters : List Character) (notes : List String) : String :=
  "You are a Scene Shaper AI. Use the outline, characters, and analyst notes to write screenplay scenes.\n"
  ++ "Return \x7b \"scenes\": [ \x7b\"number\": int, \"content\": \"...\"\x7d, ... ] \x7d.\n"
  ++ "Outline: " ++ o.json ++ "\n"
  ++ "Characters: " ++ json_dumps (.arr (characters.map Character.dict)) ++ "\n"
  ++ "Notes: " ++ json_dumps (.arr (notes.map Json.str))

/-- `PlotArchitectAgent.run` (lines 102-115): try `Outline.parse_raw` on
the raw response; on `ValidationError` (the only exception `parse_raw`
raises) retry on `clean_json(response)`.  A `ValueError` from `clean_json`
is not caught. -/
def PlotArchitectAgent.run (inv : Invoker) (input_data : StoryData) : Except Err StoryData :=
  let response := inv (plotPrompt input_data.premise)
  match Outline.parse_raw response with
  | .ok outline => .ok ⟨input_data.premise, some outline, [], [], []⟩
  | .error _ =>
    match clean_json response with
    | .error e => .error e
    | .ok cleaned =>
      match Outline.parse_raw cleaned with
      | .error e => .error e
      | .ok outline => .ok ⟨input_data.premise, some outline, [], [], []⟩

/-- `CharacterDesignerAgent.run` (lines 118-134).  The `assert` on the
outline fires exactly when it is `None` (a model instance is always
truthy).  `json.loads(clean_json(response)).get("characters", [])`
defaults an absent key to `[]`, which the truthiness test then rejects
with the `ValueError`; iterating a truthy non-list either feeds non-dict
elements to `Character.parse_obj` (string, dict — `ValidationError`) or is
not iterable at all (`TypeError`). -/
def CharacterDesignerAgent.run (inv : Invoker) (input_data : StoryData) : Except Err StoryData :=
  match input_data.outline with
  | none => .error (.assertionError "PlotArchitectAgent failed to produce outline")
  | some o =>
    let response := inv (charPrompt o)
    match clean_json response with
    | .error e => .error e
    | .ok cleaned =>
      match json_loads cleaned with
      | .error e => .error e
      | .ok (Json.obj kvs) =>
        let chars_json := (dictGet kvs "characters").getD (Json.arr [])
        if pyFalsy chars_json then
          .error (.valueError "CharacterDesignerAgent: missing 'characters' in response")
        else
          match chars_json with
          | .arr items =>
            match items.mapM Character.parse_obj with
            | some characters => .ok ⟨input_data.premise, some o, characters, [], []⟩
            | none => .error .validationError
          | .str _ => .error .validationError
          | .obj _ => .error .validationError
          | _ => .error .typeError
      | .ok _ => .error .attributeError

/-- `ThematicAnalystAgent.run` (lines 137-147).  The `assert` fires on an
empty character list; building the prompt calls `input_data.outline.json()`,
an `AttributeError` when the outline is `None`.  `analysis.get("notes", [])`
silently defaults, and the result is validated as `List[str]` by the
`StoryData` constructor. -/
def ThematicAnalystAgent.run (inv : Invoker) (input_data : StoryData) : Except Err StoryData :=
  if input_data.characters.isEmpty then
    .error (.assertionError "CharacterDesignerAgent returned empty characters")
  else
    match input_data.outline with
    | none => .error .attributeError
    | some o =>
      let response := inv (thematicPrompt o input_data.characters)
      match clean_json response with
      | .error e => .error e
      | .ok cleaned =>
        match json_loads cleaned with
        | .error e => .error e
        | .ok (Json.obj kvs) =>
          match validate_str_list ((dictGet kvs "notes").getD (Json.arr [])) with
          | some notes =>
            .ok ⟨input_data.premise, some o, input_data.characters, notes, []⟩
          | none => .error .validationError
        | .ok _ => .error .attributeError

/-- `SceneShaperAgent.run` (lines 150-160).  No `assert`; building the
prompt dereferences the outline (`AttributeError` on `None`);
`.get("scenes", [])` silently defaults; each element is only required to
be a dict by the `StoryData` constructor. -/
def SceneShaperAgent.run (inv : Invoker) (input_data : StoryData) : Except Err StoryData :=
  match input_data.outline with
  | none => .error .attributeError
  | some o =>
    let response := inv (scenePrompt o input_data.characters input_data.analysis_notes)
    match clean_json response with
    | .error e => .error e
    | .ok cleaned =>
      match json_loads cleaned with
      | .error e => .error e
      | .ok (Json.obj kvs) =>
        match validate_dict_list ((dictGet kvs "scenes").getD (Json.arr [])) with
        | some scenes =>
          .ok ⟨input_data.premise, some o, input_data.characters, input_data.analysis_notes, scenes⟩
        | none => .error .validationError
      | .ok _ => .error .attributeError

/-! ## The pipeline (structure.py lines 166-172) -/

/-- `run_story_pipeline(premise)`: the four agents in sequence, threading
the accumulated `StoryData`; the first raised exception aborts the run. -/
def run_story_pipeline (inv : Invoker) (premise : String) : Except Err StoryData :=
  match PlotArchitectAgent.run inv ⟨some premise, none, [], [], []⟩ with
  | .error e => .error e
  | .ok d1 =>
    match CharacterDesignerAgent.run inv d1 with
    | .error e => .error e
    | .ok d2 =>
      match ThematicAnalystAgent.run inv d2 with
      | .error e => .error e
      | .ok d3 => SceneShaperAgent.run inv d3

/-- The four pipeline stages, by name. -/
inductive StageId where
  | plotArchitect | characterDesigner | thematicAnalyst | sceneShaper
deriving DecidableEq

def stage_run : StageId → Invoker → StoryData → Except Err StoryData
  | .plotArchitect => PlotArchitectAgent.run
  | .characterDesigner => CharacterDesignerAgent.run
  | .thematicAnalyst => ThematicAnalystAgent.run
  | .sceneShaper => SceneShaperAgent.run

/-- The stage order fixed by the statement sequence of
`run_story_pipeline`. -/
def pipeline_stages : List StageId :=
  [.plotArchitect, .characterDesigner, .thematicAnalyst, .sceneShaper]

/-- Runs a list of stages in order, recording which stages actually
executed; a stage failure aborts the remainder. -/
def run_stages : List StageId → Invoker → StoryData → List StageId × Except Err StoryData
  | [], _, d => ([], .ok d)
  | s :: rest, inv, d =>
    match stage_run s inv d with
    | .ok d' =>
      let r := run_stages rest inv d'
      (s :: r.1, r.2)
    | .error e => ([s], .error e)

/-- `run_story_pipeline`, instrumented with the execution trace. -/
def run_story_pipelineT (inv : Invoker) (premise : String) :
    List StageId × Except Err StoryData :=
  run_stages pipeline_stages inv ⟨some premise, none, [], [], []⟩

def Err.isAssert : Err → Bool
  | .assertionError _ => true
  | _ => false

/-- Does a pipeline result come from a failing `assert` statement? -/
def result_isAssert : Except Err StoryData → Bool
  | .error e => e.isAssert
  | .ok _ => false

/-! ## General helper lemmas -/

theorem dropWhile_dropWhile_subset (p q : Char → Bool)
    (h : ∀ c, p c = true → q c = true) (l : List Char) :
    (l.dropWhile q).dropWhile p = l.dropWhile q := by
  induction l with
  | nil => rfl
  | cons c rest ih =>
    cases hq : q c with
    | true => simpa [List.dropWhile_cons, hq] using ih
    | false =>
      have hp : p c = false := by
        cases hpc : p c
        · rfl
        · exact absurd (h c hpc) (by simp [hq])
      simp [List.dropWhile_cons, hq, hp]

theorem contains_append_left {l₁ l₂ : List Char} {c : Char}
    (h : l₁.contains c = true) : (l₁ ++ l₂).contains c = true := by
  simp only [List.contains_eq_any_beq, List.any_append, Bool.or_eq_true] at h ⊢
  exact Or.inl h

/-- The second `.lstrip("```")` of `clean_json` can remove nothing: every
character it strips is already stripped by `.lstrip("```json")`. -/
theorem pyLstripSet_backquote_redundant (s : String) :
    pyLstripSet backquoteChars (pyLstripSet backquoteJsonChars s) =
      pyLstripSet backquoteJsonChars s := by
  have hsub : ∀ c, backquoteChars.contains c = true → backquoteJsonChars.contains c = true := by
    intro c hc
    have : backquoteJsonChars = backquoteChars ++ "json".data := rfl
    rw [this]
    exact contains_append_left hc
  show (⟨((s.data.dropWhile _).dropWhile _ : List Char)⟩ : String) = ⟨s.data.dropWhile _⟩
  exact congrArg String.mk (dropWhile_dropWhile_subset _ _ hsub s.data)

/-- The behaviour claim C9 ascribes to `clean_json`, written from the
claim's words: strip surrounding whitespace, remove every leading
character in the set backquote/j/s/o/n, then — if the remainder contains
a brace — return the substring from the first brace through the end,
otherwise raise the `ValueError`. -/
def clean_json_c9 (raw : String) : Except Err String :=
  let r := (pyStrip raw).data.dropWhile (fun c => backquoteJsonChars.contains c)
  if r.contains '{' then .ok ⟨r.dropWhile (fun c => !(c == '{'))⟩
  else .error (.valueError "No JSON object found in LLM response")

/-- A whitespace-only string strips to the empty string. -/
theorem pyStrip_all_space {raw : String} (h : ∀ c ∈ raw.data, pyIsSpace c = true) :
    pyStrip raw = "" := by
  unfold pyStrip
  rw [List.dropWhile_eq_nil_iff.mpr h]
  rfl

theorem clean_json_error_shape {s : String} {e : Err} (h : clean_json s = .error e) :
    e = .valueError "No JSON object found in LLM response" := by
  simp only [clean_json] at h
  split at h <;> simp_all

theorem json_loads_error_shape {s : String} {e : Err} (h : json_loads s = .error e) :
    e = .jsonDecodeError := by
  unfold json_loads at h
  split at h <;> simp_all

theorem parse_raw_error_shape {s : String} {e : Err} (h : Outline.parse_raw s = .error e) :
    e = .validationError := by
  unfold Outline.parse_raw at h
  split at h
  · simp_all
  · split at h <;> simp_all

theorem clean_json_error_not_assert {s : String} {e : Err}
    (h : clean_json s = .error e) : e.isAssert = false := by
  rw [clean_json_error_shape h]; rfl

theorem json_loads_error_not_assert {s : String} {e : Err}
    (h : json_loads s = .error e) : e.isAssert = false := by
  rw [json_loads_error_shape h]; rfl

theorem parse_raw_error_not_assert {s : String} {e : Err}
    (h : Outline.parse_raw s = .error e) : e.isAssert = false := by
  rw [parse_raw_error_shape h]; rfl

/-! ## Shape of each agent's successful and failing results -/

/-- A normal return of `PlotArchitectAgent.run`: the premise is passed
through and the outline is always set. -/
theorem plot_run_ok {inv : Invoker} {d d' : StoryData}
    (h : PlotArchitectAgent.run inv d = .ok d') :
    d'.premise = d.premise ∧ d'.outline.isSome = true ∧ d'.characters = [] ∧
    d'.analysis_notes = [] ∧ d'.screenplay_scenes = [] := by
  simp only [PlotArchitectAgent.run] at h
  split at h
  · injection h with h; subst h; simp
  · split at h
    · simp at h
    · split at h
      · simp at h
      · injection h with h; subst h; simp

/-- `PlotArchitectAgent.run` contains no `assert`: its exceptions are the
`ValueError` of `clean_json` or a `pydantic.ValidationError`. -/
theorem plot_run_error {inv : Invoker} {d : StoryData} {e : Err}
    (h : PlotArchitectAgent.run inv d = .error e) : e.isAssert = false := by
  simp only [PlotArchitectAgent.run] at h
  split at h
  · simp at h
  · split at h
    · rename_i heq
      cases h
      exact clean_json_error_not_assert heq
    · split at h
      · rename_i heq
        cases h
        exact parse_raw_error_not_assert heq
      · simp at h

theorem mapM_option_length {α β : Type} {f : α → Option β} :
    ∀ {xs : List α} {ys : List β}, xs.mapM f = some ys → ys.length = xs.length := by
  intro xs
  induction xs with
  | nil =>
    intro ys h
    simp only [List.mapM_nil, pure, Option.some.injEq] at h
    subst h
    rfl
  | cons a as ih =>
    intro ys h
    simp only [List.mapM_cons] at h
    rcases hb : f a with _ | b <;> rw [hb] at h <;> simp only [Option.bind_eq_bind,
      Option.none_bind, Option.some_bind] at h
    · cases h
    · rcases hbs : as.mapM f with _ | bs <;> rw [hbs] at h <;> simp only [Option.none_bind,
        Option.some_bind, pure, Option.some.injEq] at h
      · cases h
      · subst h
        simp [ih hbs]

/-- A normal return of `CharacterDesignerAgent.run`: premise and outline
pass through unchanged and the character list is non-empty (an empty
`characters` value is falsy and raises the `ValueError` instead). -/
theorem char_run_ok {inv : Invoker} {d d' : StoryData}
    (h : CharacterDesignerAgent.run inv d = .ok d') :
    d'.premise = d.premise ∧ d'.outline = d.outline ∧ d'.characters.isEmpty = false ∧
    d'.analysis_notes = [] ∧ d'.screenplay_scenes = [] := by
  simp only [CharacterDesignerAgent.run] at h
  split at h
  · simp at h
  · rename_i o ho
    repeat' split at h
    all_goals try (exact Except.noConfusion h)
    rename_i hfalsy chars_json items hitems x characters hchars
    injection h with h
    subst h
    refine ⟨rfl, ho.symm, ?_, rfl, rfl⟩
    have hlen := mapM_option_length hchars
    rw [hitems] at hfalsy
    simp only [pyFalsy] at hfalsy
    cases characters with
    | nil =>
      exfalso
      cases items with
      | nil => exact hfalsy rfl
      | cons b bs => exact absurd hlen (by simp)
    | cons c cs => rfl

/-- When its `assert` precondition holds (the outline is set), a failure of
`CharacterDesignerAgent.run` is never an `AssertionError`. -/
theorem char_run_error {inv : Invoker} {d : StoryData} {e : Err}
    (ho : d.outline.isSome = true) (h : CharacterDesignerAgent.run inv d = .error e) :
    e.isAssert = false := by
  simp only [CharacterDesignerAgent.run] at h
  split at h
  · rename_i hd
    rw [hd] at ho
    exact absurd ho (by simp)
  · repeat' split at h
    all_goals try (exact Except.noConfusion h)
    all_goals injection h with h
    all_goals subst h
    all_goals try rfl
    all_goals rename_i heq
    all_goals first
      | exact clean_json_error_not_assert heq
      | exact json_loads_error_not_assert heq

/-- A normal return of `ThematicAnalystAgent.run` passes premise, outline
and characters through unchanged. -/
theorem them_run_ok {inv : Invoker} {d d' : StoryData}
    (h : ThematicAnalystAgent.run inv d = .ok d') :
    d'.premise = d.premise ∧ d'.outline = d.outline ∧ d'.characters = d.characters ∧
    d'.screenplay_scenes = [] := by
  simp only [ThematicAnalystAgent.run] at h
  split at h
  · exact Except.noConfusion h
  · split at h
    · exact Except.noConfusion h
    · rename_i o ho
      repeat' split at h
      all_goals try (exact Except.noConfusion h)
      injection h with h
      subst h
      exact ⟨rfl, ho.symm, rfl, rfl⟩

/-- When its `assert` precondition holds (a non-empty character list), a
failure of `ThematicAnalystAgent.run` is never an `AssertionError`. -/
theorem them_run_error {inv : Invoker} {d : StoryData} {e : Err}
    (hc : d.characters.isEmpty = false) (h : ThematicAnalystAgent.run inv d = .error e) :
    e.isAssert = false := by
  simp only [ThematicAnalystAgent.run] at h
  split at h
  · rename_i hemp
    rw [hemp] at hc
    exact Bool.noConfusion hc
  · repeat' split at h
    all_goals try (exact Except.noConfusion h)
    all_goals injection h with h
    all_goals subst h
    all_goals try rfl
    all_goals rename_i heq
    all_goals first
      | exact clean_json_error_not_assert heq
      | exact json_loads_error_not_assert heq

/-- A normal return of `SceneShaperAgent.run` passes premise, outline,
characters and analysis notes through unchanged. -/
theorem scene_run_ok {inv : Invoker} {d d' : StoryData}
    (h : SceneShaperAgent.run inv d = .ok d') :
    d'.premise = d.premise ∧ d'.outline = d.outline ∧ d'.characters = d.characters ∧
    d'.analysis_notes = d.analysis_notes := by
  simp only [SceneShaperAgent.run] at h
  split at h
  · exact Except.noConfusion h
  · rename_i o ho
    repeat' split at h
    all_goals try (exact Except.noConfusion h)
    injection h with h
    subst h
    exact ⟨rfl, ho.symm, rfl, rfl⟩

/-- `SceneShaperAgent.run` contains no `assert` at all. -/
theorem scene_run_error {inv : Invoker} {d : StoryData} {e : Err}
    (h : SceneShaperAgent.run inv d = .error e) : e.isAssert = false := by
  simp only [SceneShaperAgent.run] at h
  repeat' split at h
  all_goals try (exact Except.noConfusion h)
  all_goals injection h with h
  all_goals subst h
  all_goals try rfl
  all_goals rename_i heq
  all_goals first
    | exact clean_json_error_not_assert heq
    | exact json_loads_error_not_assert heq

/-! ## Concrete data for the witnesses: a deterministic stub invoker that
answers each stage's prompt with a fixed well-formed response. -/

def premise_w : String := "A lone botanist tends the last garden."

def plotResp : String :=
  "\x7b\"title\": \"T\", \"theme\": \"M\", \"protagonist_desire\": \"D\", \"protagonist_need\": \"N\", \"scenes\": [\x7b\"act\": 1, \"number\": 1, \"description\": \"open\", \"conflict\": \"storm\", \"value_change\": \"hope\"\x7d]\x7d"

def charResp : String :=
  "\x7b\"characters\": [\x7b\"name\": \"Ana\", \"role\": \"hero\", \"backstory\": \"b\", \"desire\": \"d\", \"need\": \"n\", \"arc\": \"rise\"\x7d]\x7d"

def themResp : String := "\x7b\"issues_found\": false, \"notes\": [\"fine\"]\x7d"

def sceneResp : String := "\x7b\"scenes\": [\x7b\"number\": 1, \"content\": \"INT. GARDEN\"\x7d]\x7d"

/-- A deterministic stub backend: it keys on the 11th character of the
prompt, which distinguishes the four agents ("You are a Plot/Character/
Thematic/Scene ..."). -/
def wInv : Invoker := fun prompt =>
  match prompt.data.drop 10 with
  | 'P' :: _ => plotResp
  | 'C' :: _ => charResp
  | 'T' :: _ => themResp
  | _ => sceneResp

def outline_w : Outline := ⟨"T", "M", "D", "N", [⟨1, 1, "open", "storm", "hope"⟩]⟩

def chars_w : List Character := [⟨"Ana", "hero", "b", "d", "n", some "rise"⟩]

def scene_json_w : Json := Json.obj [("number", Json.num 1), ("content", Json.str "INT. GARDEN")]

def d0_w : StoryData := ⟨some premise_w, none, [], [], []⟩

def d1_w : StoryData := ⟨some premise_w, some outline_w, [], [], []⟩

def d2_w : StoryData := ⟨some premise_w, some outline_w, chars_w, [], []⟩

def d3_w : StoryData := ⟨some premise_w, some outline_w, chars_w, ["fine"], []⟩

def d4_w : StoryData := ⟨some premise_w, some outline_w, chars_w, ["fine"], [scene_json_w]⟩

set_option maxRecDepth 400000 in
theorem plot_w : PlotArchitectAgent.run wInv d0_w = .ok d1_w := rfl

set_option maxRecDepth 400000 in
theorem char_w : CharacterDesignerAgent.run wInv d1_w = .ok d2_w := rfl

set_option maxRecDepth 400000 in
theorem them_w : ThematicAnalystAgent.run wInv d2_w = .ok d3_w := rfl

set_option maxRecDepth 400000 in
theorem scene_w : SceneShaperAgent.run wInv d3_w = .ok d4_w := rfl

set_option maxRecDepth 400000 in
theorem pipeline_w : run_story_pipeline wInv premise_w = .ok d4_w := rfl

/-! ## The claims -/

/-- C9: for every input string, `clean_json` behaves as described: strip
surrounding whitespace, remove every leading character of the set
backquote/j/s/o/n (the character-set semantics of `lstrip("```json")`),
then return the substring from the first brace through the end of the
remainder (trailing fences and prose included), or raise
`ValueError("No JSON object found in LLM response")` when the remainder
has no brace. -/
theorem c9_clean_json_description (raw : String) : clean_json raw = clean_json_c9 raw := by
  have key : ∀ (c : Prop) [Decidable c] (a : String) (E : Err),
      (match (if c then some a else none) with
        | some m => Except.ok m
        | none => Except.error E) =
        if c then Except.ok a else (Except.error E : Except Err String) := by
    intro c _ a E
    by_cases h : c <;> simp [h]
  unfold clean_json
  rw [pyLstripSet_backquote_redundant]
  exact key _ _ _

/-- C4: a raw response that is empty or whitespace-only makes `clean_json`
raise its `ValueError` (the code's classified error for an output with no
JSON object, the spec's `EmptyOutputError`), and extraction therefore
fails before the JSON parser is ever invoked (first component `false`). -/
theorem c4_empty_fails_before_parse (raw : String)
    (h : ∀ c ∈ raw.data, pyIsSpace c = true) :
    clean_json raw = .error (.valueError "No JSON object found in LLM response") ∧
    extract_jsonT raw = (false, .error (.valueError "No JSON object found in LLM response")) := by
  have hc : clean_json raw = .error (.valueError "No JSON object found in LLM response") := by
    unfold clean_json
    rw [pyStrip_all_space h]
    rfl
  refine ⟨hc, ?_⟩
  unfold extract_jsonT
  rw [hc]

/-- Witness for C4: the concrete whitespace-only response. -/
theorem c4_witness :
    clean_json " \n\t " = .error (.valueError "No JSON object found in LLM response") ∧
    extract_jsonT " \n\t " = (false, .error (.valueError "No JSON object found in LLM response")) :=
  c4_empty_fails_before_parse " \n\t " (by decide)

def malformed_input : String := "\x7bincomplete"

set_option maxRecDepth 400000 in
/-- C5: the raw response `"{incomplete"` fails at the JSON-decode step:
`json.loads(clean_json(...))` raises `json.JSONDecodeError` (the code's
classified error for an unparseable literal, the spec's
`MalformedOutputError`) in the three `json.loads` stages, and in the
Outline stage pydantic's `parse_raw` surfaces the same decode failure as
its `ValidationError`.  No stage succeeds and no stage reports the
missing-object `ValueError`. -/
theorem c5_malformed_literal :
    extract_json malformed_input = .error .jsonDecodeError ∧
    CharacterDesignerAgent.run (fun _ => malformed_input) d1_w = .error .jsonDecodeError ∧
    ThematicAnalystAgent.run (fun _ => malformed_input) d2_w = .error .jsonDecodeError ∧
    SceneShaperAgent.run (fun _ => malformed_input) d3_w = .error .jsonDecodeError ∧
    Outline.parse_raw malformed_input = .error .validationError ∧
    PlotArchitectAgent.run (fun _ => malformed_input) d0_w = .error .validationError :=
  ⟨rfl, rfl, rfl, rfl, rfl, rfl⟩

/-- The spec's C2 test input: a fenced JSON object with prose on both
sides. -/
def c2_input : String :=
  "Sure! ```json\n\x7b\"title\":\"X\",\"theme\":\"Y\",\"protagonist_desire\":\"D\",\"protagonist_need\":\"N\",\"scenes\":[]\x7d\n``` Hope that helps!"

def c2_first_literal : String :=
  "\x7b\"title\":\"X\",\"theme\":\"Y\",\"protagonist_desire\":\"D\",\"protagonist_need\":\"N\",\"scenes\":[]\x7d"

set_option maxRecDepth 400000 in
/-- C2, evaluated on the code: `clean_json` keeps everything from the
first brace to the end of the text — including the closing fence and the
trailing prose — so the Outline stage fails with a
`pydantic.ValidationError` (wrapping the `Extra data` decode failure)
instead of succeeding; yet the first balanced literal alone parses to
exactly the Outline the claim expects. -/
theorem c2_fenced_json_evaluation :
    clean_json c2_input = .ok (c2_first_literal ++ "\n``` Hope that helps!") ∧
    PlotArchitectAgent.run (fun _ => c2_input) d0_w = .error .validationError ∧
    Outline.parse_raw c2_first_literal = .ok ⟨"X", "Y", "D", "N", []⟩ :=
  ⟨rfl, rfl, rfl⟩

def c3_two_literals : String := "\x7b\"notes\": [\"ok\"]\x7d\n\x7b\"echo\": true\x7d"

def c3_first_literal : String := "\x7b\"notes\": [\"ok\"]\x7d"

def c3_trailing : String := "\x7b\"notes\": [\"ok\"]\x7d is the JSON you asked for"

def c3_leading : String := "Here it is: \x7b\"notes\": [\"ok\"]\x7d"

set_option maxRecDepth 400000 in
/-- C3, evaluated on the code: extraction keeps everything from the first
brace to the end of the raw text, so a second literal or trailing prose
makes the parse fail with `json.JSONDecodeError` (`Extra data`) even
though the first balanced literal alone parses fine; only prose before
the first brace is discarded. -/
theorem c3_first_literal_evaluation :
    extract_json c3_two_literals = .error .jsonDecodeError ∧
    json_loads c3_first_literal = .ok (Json.obj [("notes", Json.arr [Json.str "ok"])]) ∧
    extract_json c3_trailing = .error .jsonDecodeError ∧
    extract_json c3_leading = .ok (Json.obj [("notes", Json.arr [Json.str "ok"])]) :=
  ⟨rfl, rfl, rfl, rfl⟩

/-- A syntactically valid analyst response without the `notes` field. -/
def notesMissingResp : String := "\x7b\"issues_found\": false\x7d"

/-- A syntactically valid shaper response without the `scenes` field. -/
def scenesMissingResp : String := "\x7b\"done\": true\x7d"

/-- A shaper response whose scene record matches no field of the `Scene`
schema. -/
def bogusSceneResp : String := "\x7b\"scenes\": [\x7b\"bogus\": 1\x7d]\x7d"

set_option maxRecDepth 400000 in
/-- C1 counterexample: a Thematic Analyst response missing `notes` does
NOT fail the run — the stage succeeds with `analysis_notes = []` — and a
Scene Shaper response whose scene record conforms to nothing in the
`Scene` schema is stored verbatim. -/
theorem c1_counterexample :
    ThematicAnalystAgent.run (fun _ => notesMissingResp) d2_w =
      .ok ⟨some premise_w, some outline_w, chars_w, [], []⟩ ∧
    SceneShaperAgent.run (fun _ => bogusSceneResp) d3_w =
      .ok ⟨some premise_w, some outline_w, chars_w, ["fine"],
        [Json.obj [("bogus", Json.num 1)]]⟩ :=
  ⟨rfl, rfl⟩

/-- C1 amended: required fields are enforced only by the Plot Architect
(pydantic validation of `Outline`) and the Character Designer (non-empty,
per-`Character` validated list); the Thematic Analyst silently defaults a
missing `notes` field to `[]`, and the Scene Shaper silently defaults a
missing `scenes` field to `[]` and stores present scene records verbatim,
validated only to be JSON objects, never against the `Scene` schema. -/
theorem c1_required_fields_amended :
    (∀ (inv : Invoker) (d d' : StoryData),
        CharacterDesignerAgent.run inv d = .ok d' → d'.characters.isEmpty = false) ∧
    (∀ (inv : Invoker) (d : StoryData) (o : Outline) (kvs : List (String × Json)),
        d.characters.isEmpty = false → d.outline = some o →
        extract_json (inv (thematicPrompt o d.characters)) = .ok (Json.obj kvs) →
        dictGet kvs "notes" = none →
        ThematicAnalystAgent.run inv d = .ok ⟨d.premise, some o, d.characters, [], []⟩) ∧
    (∀ (inv : Invoker) (d : StoryData) (o : Outline) (kvs : List (String × Json)),
        d.outline = some o →
        extract_json (inv (scenePrompt o d.characters d.analysis_notes)) = .ok (Json.obj kvs) →
        dictGet kvs "scenes" = none →
        SceneShaperAgent.run inv d =
          .ok ⟨d.premise, some o, d.characters, d.analysis_notes, []⟩) ∧
    (∀ (inv : Invoker) (d : StoryData) (o : Outline) (kvs : List (String × Json))
        (vs : List Json),
        d.outline = some o →
        extract_json (inv (scenePrompt o d.characters d.analysis_notes)) = .ok (Json.obj kvs) →
        dictGet kvs "scenes" = some (Json.arr vs) → vs.all isObj = true →
        SceneShaperAgent.run inv d =
          .ok ⟨d.premise, some o, d.characters, d.analysis_notes, vs⟩) := by
  refine ⟨fun inv d d' h => (char_run_ok h).2.2.1, ?_, ?_, ?_⟩
  · intro inv d o kvs hc ho hext hnone
    unfold extract_json at hext
    rcases hcl : clean_json (inv (thematicPrompt o d.characters)) with e | cl
    · rw [hcl] at hext
      exact Except.noConfusion hext
    · simp only [hcl] at hext
      simp only [ThematicAnalystAgent.run, hc, ho, hcl, hext, hnone]
      rfl
  · intro inv d o kvs ho hext hnone
    unfold extract_json at hext
    rcases hcl : clean_json (inv (scenePrompt o d.characters d.analysis_notes)) with e | cl
    · rw [hcl] at hext
      exact Except.noConfusion hext
    · simp only [hcl] at hext
      simp only [SceneShaperAgent.run, ho, hcl, hext, hnone]
      rfl
  · intro inv d o kvs vs ho hext hsc hobj
    unfold extract_json at hext
    rcases hcl : clean_json (inv (scenePrompt o d.characters d.analysis_notes)) with e | cl
    · rw [hcl] at hext
      exact Except.noConfusion hext
    · simp only [hcl] at hext
      simp only [SceneShaperAgent.run, ho, hcl, hext, hsc]
      simp only [validate_dict_list, Option.getD_some, hobj]
      rfl

set_option maxRecDepth 400000 in
/-- Witness for C1-amended at the stub invoker and per-stage concrete
responses. -/
theorem c1_witness :
    d2_w.characters.isEmpty = false ∧
    ThematicAnalystAgent.run (fun _ => notesMissingResp) d2_w =
      .ok ⟨d2_w.premise, some outline_w, d2_w.characters, [], []⟩ ∧
    SceneShaperAgent.run (fun _ => scenesMissingResp) d3_w =
      .ok ⟨d3_w.premise, some outline_w, d3_w.characters, d3_w.analysis_notes, []⟩ ∧
    SceneShaperAgent.run (fun _ => bogusSceneResp) d3_w =
      .ok ⟨d3_w.premise, some outline_w, d3_w.characters, d3_w.analysis_notes,
        [Json.obj [("bogus", Json.num 1)]]⟩ :=
  ⟨c1_required_fields_amended.1 wInv d1_w d2_w char_w,
   c1_required_fields_amended.2.1 (fun _ => notesMissingResp) d2_w outline_w
     [("issues_found", Json.bool false)] rfl rfl rfl rfl,
   c1_required_fields_amended.2.2.1 (fun _ => scenesMissingResp) d3_w outline_w
     [("done", Json.bool true)] rfl rfl rfl,
   c1_required_fields_amended.2.2.2 (fun _ => bogusSceneResp) d3_w outline_w
     [("scenes", Json.arr [Json.obj [("bogus", Json.num 1)]])]
     [Json.obj [("bogus", Json.num 1)]] rfl rfl rfl rfl⟩

/-- C6: whenever `run_story_pipeline` completes, exactly the four stages
ran, once each, in the declaration order Plot Architect → Character
Designer → Thematic Analyst → Scene Shaper (which is consistent with their
data dependencies), and the returned `StoryData` carries one outline, one
non-empty character list, one notes list and one scenes list. -/
theorem c6_four_stages_once {inv : Invoker} {premise : String} {d : StoryData}
    (h : run_story_pipeline inv premise = .ok d) :
    (run_story_pipelineT inv premise).1 = pipeline_stages ∧
    (run_story_pipelineT inv premise).2 = .ok d ∧
    pipeline_stages.count .plotArchitect = 1 ∧
    pipeline_stages.count .characterDesigner = 1 ∧
    pipeline_stages.count .thematicAnalyst = 1 ∧
    pipeline_stages.count .sceneShaper = 1 ∧
    d.outline.isSome = true ∧ d.characters.isEmpty = false := by
  unfold run_story_pipeline at h
  rcases h1 : PlotArchitectAgent.run inv ⟨some premise, none, [], [], []⟩ with e | d1 <;>
    simp only [h1] at h
  · exact Except.noConfusion h
  rcases h2 : CharacterDesignerAgent.run inv d1 with e | d2 <;> simp only [h2] at h
  · exact Except.noConfusion h
  rcases h3 : ThematicAnalystAgent.run inv d2 with e | d3 <;> simp only [h3] at h
  · exact Except.noConfusion h
  have htrace : run_story_pipelineT inv premise = (pipeline_stages, .ok d) := by
    unfold run_story_pipelineT pipeline_stages
    simp only [run_stages, stage_run, h1, h2, h3, h]
  refine ⟨by rw [htrace], by rw [htrace], by decide, by decide, by decide, by decide, ?_, ?_⟩
  · have e4 := (scene_run_ok h).2.1
    have e3 := (them_run_ok h3).2.1
    have e2 := (char_run_ok h2).2.1
    rw [e4, e3, e2]
    exact (plot_run_ok h1).2.1
  · have e4 := (scene_run_ok h).2.2.1
    have e3 := (them_run_ok h3).2.2.1
    rw [e4, e3]
    exact (char_run_ok h2).2.2.1

set_option maxRecDepth 400000 in
/-- Witness for C6 at the stub invoker. -/
theorem c6_witness :
    (run_story_pipelineT wInv premise_w).1 = pipeline_stages ∧
    (run_story_pipelineT wInv premise_w).2 = .ok d4_w ∧
    pipeline_stages.count .plotArchitect = 1 ∧
    pipeline_stages.count .characterDesigner = 1 ∧
    pipeline_stages.count .thematicAnalyst = 1 ∧
    pipeline_stages.count .sceneShaper = 1 ∧
    d4_w.outline.isSome = true ∧ d4_w.characters.isEmpty = false :=
  c6_four_stages_once pipeline_w

/-- C7: the pipeline is a pure function of the premise and the generation
backend.  With a deterministic backend (modelled as a function from the
resolved prompt to the returned text) and the same premise, two
invocations of `run_story_pipeline` return identical `StoryData` results:
the pipeline adds no nondeterminism of its own. -/
theorem c7_pipeline_deterministic (inv₁ inv₂ : Invoker) (p₁ p₂ : String)
    (hinv : ∀ s, inv₁ s = inv₂ s) (hp : p₁ = p₂) :
    run_story_pipeline inv₁ p₁ = run_story_pipeline inv₂ p₂ := by
  have h : inv₁ = inv₂ := funext hinv
  rw [h, hp]

/-- Witness for C7 at the stub invoker. -/
theorem c7_witness :
    run_story_pipeline wInv premise_w = run_story_pipeline wInv premise_w :=
  c7_pipeline_deterministic wInv wInv premise_w premise_w (fun _ => rfl) rfl

/-- C8: each stage returns a `StoryData` that preserves every field
populated by the preceding stages — the premise everywhere, the outline
from the Character Designer on, the characters from the Thematic Analyst
on, and the analysis notes in the Scene Shaper — adding only its own
output field. -/
theorem c8_monotonic_state :
    (∀ (inv : Invoker) (d d' : StoryData),
        PlotArchitectAgent.run inv d = .ok d' → d'.premise = d.premise) ∧
    (∀ (inv : Invoker) (d d' : StoryData),
        CharacterDesignerAgent.run inv d = .ok d' →
          d'.premise = d.premise ∧ d'.outline = d.outline) ∧
    (∀ (inv : Invoker) (d d' : StoryData),
        ThematicAnalystAgent.run inv d = .ok d' →
          d'.premise = d.premise ∧ d'.outline = d.outline ∧ d'.characters = d.characters) ∧
    (∀ (inv : Invoker) (d d' : StoryData),
        SceneShaperAgent.run inv d = .ok d' →
          d'.premise = d.premise ∧ d'.outline = d.outline ∧ d'.characters = d.characters ∧
          d'.analysis_notes = d.analysis_notes) :=
  ⟨fun _ _ _ h => (plot_run_ok h).1,
   fun _ _ _ h => ⟨(char_run_ok h).1, (char_run_ok h).2.1⟩,
   fun _ _ _ h => ⟨(them_run_ok h).1, (them_run_ok h).2.1, (them_run_ok h).2.2.1⟩,
   fun _ _ _ h => ⟨(scene_run_ok h).1, (scene_run_ok h).2.1, (scene_run_ok h).2.2.1,
     (scene_run_ok h).2.2.2⟩⟩

set_option maxRecDepth 400000 in
/-- Witness for C8 along the concrete pipeline states. -/
theorem c8_witness :
    d1_w.premise = d0_w.premise ∧
    (d2_w.premise = d1_w.premise ∧ d2_w.outline = d1_w.outline) ∧
    (d3_w.premise = d2_w.premise ∧ d3_w.outline = d2_w.outline ∧
      d3_w.characters = d2_w.characters) ∧
    (d4_w.premise = d3_w.premise ∧ d4_w.outline = d3_w.outline ∧
      d4_w.characters = d3_w.characters ∧ d4_w.analysis_notes = d3_w.analysis_notes) :=
  ⟨c8_monotonic_state.1 wInv d0_w d1_w plot_w,
   c8_monotonic_state.2.1 wInv d1_w d2_w char_w,
   c8_monotonic_state.2.2.1 wInv d2_w d3_w them_w,
   c8_monotonic_state.2.2.2 wInv d3_w d4_w scene_w⟩

/-- C10: the two stage-precondition `assert`s cannot fire inside
`run_story_pipeline`: a normal return of the Plot Architect always has the
outline set (so the Character Designer's `assert` passes), a normal
return of the Character Designer always has a non-empty character list —
it raises the `ValueError` otherwise — (so the Thematic Analyst's `assert`
passes), and consequently no pipeline run ever ends in an
`AssertionError`. -/
theorem c10_asserts_never_fire :
    (∀ (inv : Invoker) (d d' : StoryData),
        PlotArchitectAgent.run inv d = .ok d' → d'.outline.isSome = true) ∧
    (∀ (inv : Invoker) (d d' : StoryData),
        CharacterDesignerAgent.run inv d = .ok d' → d'.characters.isEmpty = false) ∧
    (∀ (inv : Invoker) (premise : String),
        result_isAssert (run_story_pipeline inv premise) = false) := by
  refine ⟨fun _ _ _ h => (plot_run_ok h).2.1, fun _ _ _ h => (char_run_ok h).2.2.1, ?_⟩
  intro inv premise
  unfold run_story_pipeline
  rcases h1 : PlotArchitectAgent.run inv ⟨some premise, none, [], [], []⟩ with e | d1 <;>
    simp only [h1]
  · exact plot_run_error h1
  rcases h2 : CharacterDesignerAgent.run inv d1 with e | d2 <;> simp only [h2]
  · exact char_run_error (plot_run_ok h1).2.1 h2
  rcases h3 : ThematicAnalystAgent.run inv d2 with e | d3 <;> simp only [h3]
  · exact them_run_error (char_run_ok h2).2.2.1 h3
  rcases h4 : SceneShaperAgent.run inv d3 with e | d4
  · exact scene_run_error h4
  · rfl

set_option maxRecDepth 400000 in
/-- Witness for C10 along the concrete pipeline states. -/
theorem c10_witness :
    d1_w.outline.isSome = true ∧ d2_w.characters.isEmpty = false ∧
    result_isAssert (run_story_pipeline wInv premise_w) = false :=
  ⟨c10_asserts_never_fire.1 wInv d0_w d1_w plot_w,
   c10_asserts_never_fire.2.1 wInv d1_w d2_w char_w,
   c10_asserts_never_fire.2.2 wInv premise_w⟩

end Screenwriter
